import Mathlib

/-!
Verification development for the Neon meme marketplace backend.

The definitions below are a shallow embedding of the ranking and retrieval
engine of the repository: the relevance search, the time-decayed trending
view, the tag-popularity aggregation, the pagination helper, and the two
counter-increment operations.  Timestamps are modelled as integer
milliseconds since the epoch (the unit produced by subtracting JavaScript
Date values); derived scores live in the rational numbers.
-/

namespace NeonStore

/-- One catalog record, mirroring the meme document fields that the core
reads or writes. -/
structure Meme where
  id : Nat
  image_url : String
  cloudinary_id : String
  tags : List String
  description : String
  upvotes : Nat
  downloads : Nat
  createdAt : Int
  updatedAt : Int
deriving DecidableEq

/-- Lowercasing of a whole string, as toLowerCase does in the source. -/
def jsLower (s : String) : String := String.mk (s.toList.map Char.toLower)

/-- Splitting on whitespace, chunk accumulator version.  Runs of
whitespace produce empty chunks, which the token filter removes, matching
the split-then-filter pipeline of the source. -/
def splitWsAux : List Char → List Char → List (List Char)
  | [], cur => [cur.reverse]
  | c :: cs, cur =>
    if c.isWhitespace then cur.reverse :: splitWsAux cs []
    else splitWsAux cs (c :: cur)

/-- Split a character list into whitespace-delimited chunks. -/
def splitWs (l : List Char) : List (List Char) := splitWsAux l []

/-- Tokenization of a search query: lowercase, split on whitespace, keep
only chunks of length at least two. -/
def jsTokenize (q : String) : List String :=
  ((splitWs (jsLower q).toList).map (fun l => String.mk l)).filter
    (fun w => decide (1 < w.length))

/-- Character-list version of startsWith. -/
def startsWith : List Char → List Char → Bool
  | [], _ => true
  | _ :: _, [] => false
  | a :: as, b :: bs => a = b && startsWith as bs

/-- Substring containment test: does the needle occur contiguously inside
the haystack?  This models the includes method of JavaScript strings. -/
def substrB (needle : List Char) : List Char → Bool
  | [] => startsWith needle []
  | c :: t => startsWith needle (c :: t) || substrB needle t

/-- Case-insensitive substring test, modelling both the case-insensitive
regular expression used in the store filter and the explicit
toLowerCase-includes checks in the scoring pass. -/
def containsCI (needle hay : String) : Bool :=
  substrB (jsLower needle).toList (jsLower hay).toList

/-- Number of tags that contain at least one query token, from the
scoring pass of the search route: the source filters the tag array by
whether some search word is a substring of the tag, and takes the length. -/
def tagMatches (words : List String) (m : Meme) : Nat :=
  (m.tags.filter (fun tag => words.any (fun w => containsCI w tag))).length

/-- Number of query token occurrences that are substrings of the
description, from the scoring pass of the search route; a falsy (empty)
description contributes zero. -/
def descriptionMatches (words : List String) (m : Meme) : Nat :=
  if m.description = "" then 0
  else (words.filter (fun w => containsCI w m.description)).length

/-- Relevance score of a candidate, from the scoring pass of the search
route: description matches carry double weight. -/
def relevanceScore (words : List String) (m : Meme) : Nat :=
  descriptionMatches words m * 2 + tagMatches words m

/-- Candidate selection filter of the search route: some token matches
some tag, or some token matches the description. -/
def matchesQuery (words : List String) (m : Meme) : Bool :=
  words.any (fun w =>
    m.tags.any (fun tag => containsCI w tag) || containsCI w m.description)

/-- A search result entry: the record together with its computed score. -/
structure ScoredMeme where
  base : Meme
  relevanceScore : Nat
deriving DecidableEq

/-- Shape of a successful search response: the token list, the page of
scored entries, and the pagination block. -/
structure SearchOut where
  searchWords : List String
  memes : List ScoredMeme
  current : Nat
  totalPages : Nat
  count : Nat
  totalItems : Nat
deriving DecidableEq

/-- Client errors surfaced by the routes. -/
inductive RouteErr
  | invalidQuery
  | notFound
deriving DecidableEq

/-- Store ordering used by the search query: descending creation time. -/
def byDateDesc : Meme → Meme → Prop := fun a b => b.createdAt ≤ a.createdAt

instance : DecidableRel byDateDesc := fun a b =>
  inferInstanceAs (Decidable (b.createdAt ≤ a.createdAt))

instance : IsTotal Meme byDateDesc := ⟨fun a b => le_total b.createdAt a.createdAt⟩

instance : IsTrans Meme byDateDesc :=
  ⟨fun _ _ _ h1 h2 => le_trans h2 h1⟩

/-- In-memory comparator of the search route: descending relevance score,
ties by descending creation time. -/
def byRelevance : ScoredMeme → ScoredMeme → Prop := fun a b =>
  b.relevanceScore < a.relevanceScore ∨
    (a.relevanceScore = b.relevanceScore ∧ b.base.createdAt ≤ a.base.createdAt)

instance : DecidableRel byRelevance := fun _a _b =>
  inferInstanceAs (Decidable (_ ∨ _))

instance : IsTotal ScoredMeme byRelevance := by
  constructor
  intro a b
  rcases Nat.lt_trichotomy a.relevanceScore b.relevanceScore with h | h | h
  · exact Or.inr (Or.inl h)
  · rcases le_total b.base.createdAt a.base.createdAt with hd | hd
    · exact Or.inl (Or.inr ⟨h, hd⟩)
    · exact Or.inr (Or.inr ⟨h.symm, hd⟩)
  · exact Or.inl (Or.inl h)

instance : IsTrans ScoredMeme byRelevance := by
  constructor
  intro a b c hab hbc
  rcases hab with h1 | ⟨e1, d1⟩
  · rcases hbc with h2 | ⟨e2, _⟩
    · exact Or.inl (lt_trans h2 h1)
    · exact Or.inl (e2 ▸ h1)
  · rcases hbc with h2 | ⟨e2, d2⟩
    · exact Or.inl (e1 ▸ h2)
    · exact Or.inr ⟨e1.trans e2, le_trans d2 d1⟩

/-- Core computation of the search route after validation: the store
returns the matching set sorted by descending creation time, the page
slice is cut out of it, and only that page is scored and re-sorted by
relevance. -/
def searchCore (words : List String) (page limit : Nat) (catalog : List Meme) :
    SearchOut :=
  let skip := (page - 1) * limit
  let candidates := catalog.filter (fun m => matchesQuery words m)
  let pageMemes := ((List.insertionSort byDateDesc candidates).drop skip).take limit
  let total := candidates.length
  let scored := pageMemes.map (fun m => ⟨m, relevanceScore words m⟩)
  { searchWords := words
    memes := List.insertionSort byRelevance scored
    current := page
    totalPages := (total + limit - 1) / limit
    count := pageMemes.length
    totalItems := total }

/-- The search route: a missing or falsy query, or a query that leaves no
tokens, is rejected before the catalog is consulted. -/
def searchRoute (q : Option String) (page limit : Nat) (catalog : List Meme) :
    Except RouteErr SearchOut :=
  match q with
  | none => .error .invalidQuery
  | some s =>
    if s = "" then .error .invalidQuery
    else
      let words := jsTokenize s
      if words.isEmpty then .error .invalidQuery
      else .ok (searchCore words page limit catalog)

/-- Rounding of a rational to the nearest integer, halves to even: the
rounding performed by the round stage of the aggregation pipelines. -/
def roundHalfEvenQ (x : ℚ) : Int :=
  let n := Rat.floor x
  let f := x - n
  if f < 1 / 2 then n
  else if 1 / 2 < f then n + 1
  else if n % 2 = 0 then n else n + 1

/-- Rounding to two decimal places. -/
def round2 (x : ℚ) : ℚ := (roundHalfEvenQ (x * 100) : ℚ) / 100

/-- Rounding to one decimal place. -/
def round1 (x : ℚ) : ℚ := (roundHalfEvenQ (x * 10) : ℚ) / 10

/-- Fractional days elapsed between a creation time and the query time,
both in milliseconds: the difference divided by 86400000. -/
def daysSince (now createdAt : Int) : ℚ :=
  ((now - createdAt : Int) : ℚ) / 86400000

/-- The trending score formula of the trending pipeline:
(2 * upvotes + downloads) / (daysSinceCreation + 1). -/
def trendScoreOf (upvotes downloads : Nat) (t : ℚ) : ℚ :=
  ((2 * upvotes + downloads : Nat) : ℚ) / (t + 1)

/-- One entry of the trending response, carrying the rounded score and
rounded age alongside the record fields. -/
structure TrendEntry where
  base : Meme
  trendingScore : ℚ
  daysSinceCreation : ℚ
deriving DecidableEq

/-- Shape of a trending response. -/
structure TrendOut where
  trendingMemes : List TrendEntry
  current : Nat
  totalPages : Nat
  count : Nat
  totalItems : Nat
deriving DecidableEq

/-- Staged record of the trending pipeline after the addFields stage:
the record, its fractional age in days, and its raw trending score. -/
abbrev TrendStaged := Meme × ℚ × ℚ

/-- Sort order of the trending pipeline: descending score, then
descending upvotes, then descending creation time. -/
def trendOrd : TrendStaged → TrendStaged → Prop := fun a b =>
  b.2.2 < a.2.2 ∨
    (a.2.2 = b.2.2 ∧
      (b.1.upvotes < a.1.upvotes ∨
        (a.1.upvotes = b.1.upvotes ∧ b.1.createdAt ≤ a.1.createdAt)))

instance : DecidableRel trendOrd := fun _a _b =>
  inferInstanceAs (Decidable (_ ∨ _))

instance : IsTotal TrendStaged trendOrd := by
  constructor
  intro a b
  rcases lt_trichotomy a.2.2 b.2.2 with h | h | h
  · exact Or.inr (Or.inl h)
  · rcases Nat.lt_trichotomy a.1.upvotes b.1.upvotes with h2 | h2 | h2
    · exact Or.inr (Or.inr ⟨h.symm, Or.inl h2⟩)
    · rcases le_total b.1.createdAt a.1.createdAt with hd | hd
      · exact Or.inl (Or.inr ⟨h, Or.inr ⟨h2, hd⟩⟩)
      · exact Or.inr (Or.inr ⟨h.symm, Or.inr ⟨h2.symm, hd⟩⟩)
    · exact Or.inl (Or.inr ⟨h, Or.inl h2⟩)
  · exact Or.inl (Or.inl h)

instance : IsTrans TrendStaged trendOrd := by
  constructor
  intro a b c hab hbc
  rcases hab with h1 | ⟨e1, r1⟩
  · rcases hbc with h2 | ⟨e2, _⟩
    · exact Or.inl (lt_trans h2 h1)
    · exact Or.inl (e2 ▸ h1)
  · rcases hbc with h2 | ⟨e2, r2⟩
    · exact Or.inl (e1 ▸ h2)
    · refine Or.inr ⟨e1.trans e2, ?_⟩
      rcases r1 with u1 | ⟨f1, d1⟩
      · rcases r2 with u2 | ⟨f2, _⟩
        · exact Or.inl (lt_trans u2 u1)
        · exact Or.inl (f2 ▸ u1)
      · rcases r2 with u2 | ⟨f2, d2⟩
        · exact Or.inl (f1 ▸ u2)
        · exact Or.inr ⟨f1.trans f2, le_trans d2 d1⟩

/-- The addFields stage of the trending pipeline: every record is
decorated with its fractional age and raw trending score. -/
def trendingStaged (now : Int) (catalog : List Meme) : List TrendStaged :=
  catalog.map (fun m =>
    (m, daysSince now m.createdAt,
      trendScoreOf m.upvotes m.downloads (daysSince now m.createdAt)))

/-- The match stage of the trending pipeline: records older than 30
fractional days are filtered out. -/
def trendingEligible (now : Int) (catalog : List Meme) : List TrendStaged :=
  (trendingStaged now catalog).filter (fun x => decide (x.2.1 ≤ 30))

/-- The page slice of the trending pipeline after sorting. -/
def trendingPaged (now : Int) (page limit : Nat) (catalog : List Meme) :
    List TrendStaged :=
  ((List.insertionSort trendOrd (trendingEligible now catalog)).drop
    ((page - 1) * limit)).take limit

/-- The trending route: stage, filter, sort, paginate, then project with
two-decimal rounding of the score and one-decimal rounding of the age. -/
def trendingRoute (now : Int) (page limit : Nat) (catalog : List Meme) :
    TrendOut :=
  { trendingMemes := (trendingPaged now page limit catalog).map
      (fun x => ⟨x.1, round2 x.2.2, round1 x.2.1⟩)
    current := page
    totalPages := ((trendingEligible now catalog).length + limit - 1) / limit
    count := (trendingPaged now page limit catalog).length
    totalItems := (trendingEligible now catalog).length }

/-- One entry of the popular-tags response. -/
structure TagStat where
  tag : String
  count : Nat
  totalUpvotes : Nat
  totalDownloads : Nat
  avgUpvotes : ℚ
deriving DecidableEq

/-- The unwind stage: one pair per occurrence of a tag in a record. -/
def unwindTags (catalog : List Meme) : List (String × Meme) :=
  catalog.flatMap (fun m => m.tags.map (fun t => (t, m)))

/-- Distinct tags of the catalog, in some order; the group stage keys. -/
def tagKeys (catalog : List Meme) : List String :=
  ((unwindTags catalog).map Prod.fst).dedup

/-- The group stage for one tag: occurrence count, upvote and download
sums over the unwound pairs, and the rounded average upvotes. -/
def statFor (catalog : List Meme) (t : String) : TagStat :=
  let grp := (unwindTags catalog).filter (fun p => decide (p.1 = t))
  { tag := t
    count := grp.length
    totalUpvotes := (grp.map (fun p => p.2.upvotes)).sum
    totalDownloads := (grp.map (fun p => p.2.downloads)).sum
    avgUpvotes := round2 (((grp.map (fun p => p.2.upvotes)).sum : ℚ) / (grp.length : ℚ)) }

/-- Sort order of the popular-tags pipeline: descending count, ties by
descending total upvotes. -/
def statOrd : TagStat → TagStat → Prop := fun a b =>
  b.count < a.count ∨ (a.count = b.count ∧ b.totalUpvotes ≤ a.totalUpvotes)

instance : DecidableRel statOrd := fun _a _b =>
  inferInstanceAs (Decidable (_ ∨ _))

instance : IsTotal TagStat statOrd := by
  constructor
  intro a b
  rcases Nat.lt_trichotomy a.count b.count with h | h | h
  · exact Or.inr (Or.inl h)
  · rcases le_total b.totalUpvotes a.totalUpvotes with hu | hu
    · exact Or.inl (Or.inr ⟨h, hu⟩)
    · exact Or.inr (Or.inr ⟨h.symm, hu⟩)
  · exact Or.inl (Or.inl h)

instance : IsTrans TagStat statOrd := by
  constructor
  intro a b c hab hbc
  rcases hab with h1 | ⟨e1, u1⟩
  · rcases hbc with h2 | ⟨e2, _⟩
    · exact Or.inl (lt_trans h2 h1)
    · exact Or.inl (e2 ▸ h1)
  · rcases hbc with h2 | ⟨e2, u2⟩
    · exact Or.inl (e1 ▸ h2)
    · exact Or.inr ⟨e1.trans e2, le_trans u2 u1⟩

/-- The popular-tags route: unwind, group, sort by count then total
upvotes, truncate to the limit. -/
def popularRoute (limit : Nat) (catalog : List Meme) : List TagStat :=
  (List.insertionSort statOrd ((tagKeys catalog).map (statFor catalog))).take limit

/-- Sort order of the tag-suggestion pipeline: descending count. -/
def countOrd : (String × Nat) → (String × Nat) → Prop := fun a b => b.2 ≤ a.2

instance : DecidableRel countOrd := fun _a _b =>
  inferInstanceAs (Decidable (_ ≤ _))

instance : IsTotal (String × Nat) countOrd :=
  ⟨fun a b => le_total b.2 a.2⟩

instance : IsTrans (String × Nat) countOrd :=
  ⟨fun _ _ _ h1 h2 => le_trans h2 h1⟩

/-- The search-assist route: a missing or falsy query yields a success
response with no tags before the catalog is consulted; otherwise the
distinct tags containing the query as a case-insensitive substring are
ranked by occurrence count and the top ten are returned. -/
def searchAssistRoute (q : Option String) (catalog : List Meme) :
    Except RouteErr (List String) :=
  match q with
  | none => .ok []
  | some s =>
    if s = "" then .ok []
    else
      let matched := (catalog.flatMap (fun m => m.tags)).filter
        (fun t => containsCI s t)
      let stats := matched.dedup.map
        (fun t => (t, (matched.filter (fun u => decide (u = t))).length))
      .ok (((List.insertionSort countOrd stats).take 10).map Prod.fst)

/-- The single-record update performed by the upvote route: increment the
upvote counter and refresh the update timestamp. -/
def bumpUpvote (now : Int) (m : Meme) : Meme :=
  { m with upvotes := m.upvotes + 1, updatedAt := now }

/-- The findOneAndUpdate call of the upvote route: update the first
record with the given identifier and return the new catalog together
with the updated document. -/
def findOneAndUpdateUpvote (i : Nat) (now : Int) :
    List Meme → Option (List Meme × Meme)
  | [] => none
  | m :: ms =>
    if m.id = i then some (bumpUpvote now m :: ms, bumpUpvote now m)
    else
      match findOneAndUpdateUpvote i now ms with
      | none => none
      | some (ms', d) => some (m :: ms', d)

/-- The update-upvote route: a missing identifier is a client error, an
absent record is not found, otherwise the new catalog and the new upvote
count are returned. -/
def updateUpvoteRoute (memeId : Option Nat) (now : Int) (catalog : List Meme) :
    Except RouteErr (List Meme × Nat) :=
  match memeId with
  | none => .error .invalidQuery
  | some i =>
    match findOneAndUpdateUpvote i now catalog with
    | none => .error .notFound
    | some (cat', d) => .ok (cat', d.upvotes)

/-- JavaScript number-or-default coercion: parseInt followed by a falsy
check, so a missing or non-numeric input (modelled as none) and a zero
input both take the default. -/
def jsOrDefault (x : Option Int) (d : Int) : Int :=
  match x with
  | none => d
  | some v => if v = 0 then d else v

/-- The validatePagination helper: defaults, a floor of one on the page,
a clamp of the limit into one to one hundred, and the skip product. -/
def validatePagination (page limit : Option Int) : Int × Int × Int :=
  let vp := max 1 (jsOrDefault page 1)
  let vl := min 100 (max 1 (jsOrDefault limit 20))
  (vp, vl, (vp - 1) * vl)

/-- Definition following the words of the specification for the search
page: rank the whole candidate set by descending relevance with ties by
descending creation time, then cut out the requested slice.  It exists
only to be compared with the behaviour of searchRoute. -/
def specSearchPage (words : List String) (page limit : Nat)
    (catalog : List Meme) : List ScoredMeme :=
  ((List.insertionSort byRelevance
      ((catalog.filter (fun m => matchesQuery words m)).map
        (fun m => ⟨m, relevanceScore words m⟩))).drop
    ((page - 1) * limit)).take limit

/-- Definition following the words of the specification for the relevance
score: two points per distinct token that is a substring of the
description, one point per distinct token that is a substring of at least
one tag.  It exists only to be compared with relevanceScore. -/
def specRelevanceScore (words : List String) (m : Meme) : Nat :=
  2 * (words.dedup.filter (fun w => containsCI w m.description)).length +
    (words.dedup.filter (fun w => m.tags.any (fun t => containsCI w t))).length

/-- Older record with the higher relevance for the token pair: matches
both tokens in its description. -/
def cexA : Meme := ⟨1, "", "", [], "aa bb", 0, 0, 1, 0⟩

/-- Newer record with the lower relevance: matches one token. -/
def cexB : Meme := ⟨2, "", "", [], "aa", 0, 0, 2, 0⟩

/-- Record whose two tags both contain the single query token. -/
def dupTagMeme : Meme := ⟨4, "", "", ["cat", "car"], "", 0, 0, 0, 0⟩

/-- A catalog record matched by the token of the oversized-page query. -/
def flatRecord (i : Nat) : Meme :=
  ⟨i, "", "", [], "meme", 0, 0, 1000 - (i : Int), 0⟩

/-- A catalog of 101 matching records, already in descending creation
order. -/
def bigCatalog : List Meme := (List.range 101).map flatRecord

/-- Record whose tag sequence repeats one tag. -/
def dupPopMeme : Meme := ⟨4, "", "", ["cat", "cat"], "", 7, 3, 0, 0⟩

/-- First record of the popular-tags scenario. -/
def popMeme1 : Meme := ⟨1, "", "", ["funny", "cat"], "", 1, 0, 0, 0⟩

/-- Second record of the popular-tags scenario. -/
def popMeme2 : Meme := ⟨2, "", "", ["funny"], "", 2, 0, 0, 0⟩

/-- Third record of the popular-tags scenario. -/
def popMeme3 : Meme := ⟨3, "", "", ["dog"], "", 3, 0, 0, 0⟩

/-- The tag statistic computed for the tag of the one-record catalog. -/
def statW : TagStat := statFor [popMeme2] "funny"

/-- Record created two days before the sample trending query time. -/
def trendMeme : Meme := ⟨1, "", "", ["x"], "d", 10, 5, 0, 0⟩

/-- The trending entry produced for trendMeme at the sample query time. -/
def trendEntryX : TrendEntry := ⟨trendMeme, 833 / 100, 2⟩

/-- Record created more than thirty days before the sample query time. -/
def oldMeme : Meme := ⟨9, "", "", ["x"], "d", 99, 99, 0, 0⟩

/-- Records surrounding the upvote target in the sample catalog. -/
def upMeme1 : Meme := ⟨1, "a", "b", ["t"], "d", 5, 6, 7, 8⟩

/-- The upvote target of the sample catalog. -/
def upMeme2 : Meme := ⟨2, "c", "d", ["u"], "e", 9, 10, 11, 12⟩

/-- The record after the upvote target in the sample catalog. -/
def upMeme3 : Meme := ⟨3, "e", "f", ["v"], "f", 13, 14, 15, 16⟩

/-- Every entry of a trending response comes from a catalog record whose
fractional age is at most thirty days, and carries the rounded score and
age computed from that record. -/
theorem mem_trendingMemes (now : Int) (page limit : Nat) (catalog : List Meme)
    (e : TrendEntry)
    (he : e ∈ (trendingRoute now page limit catalog).trendingMemes) :
    ∃ m ∈ catalog, daysSince now m.createdAt ≤ 30 ∧
      e = ⟨m, round2 (trendScoreOf m.upvotes m.downloads
              (daysSince now m.createdAt)),
            round1 (daysSince now m.createdAt)⟩ := by
  simp only [trendingRoute] at he
  rw [List.mem_map] at he
  obtain ⟨x, hx, rfl⟩ := he
  have hx1 : x ∈ List.insertionSort trendOrd (trendingEligible now catalog) :=
    List.mem_of_mem_drop (List.mem_of_mem_take hx)
  rw [(List.perm_insertionSort trendOrd (trendingEligible now catalog)).mem_iff]
    at hx1
  rw [trendingEligible, List.mem_filter] at hx1
  obtain ⟨hx2, hx3⟩ := hx1
  rw [trendingStaged, List.mem_map] at hx2
  obtain ⟨m, hm, rfl⟩ := hx2
  exact ⟨m, hm, by simpa using hx3, rfl⟩

/-- C5: a record whose creation time lies more than thirty fractional
days before the query time never appears in the trending results,
whatever the page, the limit, the catalog, or its counters. -/
theorem trending_window_excludes_old (now : Int) (page limit : Nat)
    (catalog : List Meme) (m : Meme)
    (h : (30 : ℚ) < daysSince now m.createdAt) :
    ∀ e ∈ (trendingRoute now page limit catalog).trendingMemes,
      e.base ≠ m := by
  intro e he heq
  obtain ⟨m', _, hle, rfl⟩ := mem_trendingMemes now page limit catalog e he
  simp only at heq
  subst heq
  exact absurd hle (not_le.mpr h)

/-- C5 witness: a record created slightly more than thirty days before
the query time is absent from the trending results. -/
theorem trending_window_excludes_old_witness :
    (30 : ℚ) < daysSince 2592000001 oldMeme.createdAt ∧
      ∀ e ∈ (trendingRoute 2592000001 1 20 [oldMeme]).trendingMemes,
        e.base ≠ oldMeme :=
  ⟨by norm_num [daysSince, oldMeme],
    trending_window_excludes_old 2592000001 1 20 [oldMeme] oldMeme
      (by norm_num [daysSince, oldMeme])⟩

/-- C6: every entry of a trending response reports as trendingScore the
quantity (2 * upvotes + downloads) / (daysSinceCreation + 1) computed
from its own record at the query time and rounded to two decimals. -/
theorem trending_score_formula (now : Int) (page limit : Nat)
    (catalog : List Meme) (e : TrendEntry)
    (he : e ∈ (trendingRoute now page limit catalog).trendingMemes) :
    e.trendingScore =
      round2 (trendScoreOf e.base.upvotes e.base.downloads
        (daysSince now e.base.createdAt)) := by
  obtain ⟨m, _, _, rfl⟩ := mem_trendingMemes now page limit catalog e he
  rfl

/-- C6 witness: a record with ten upvotes and five downloads created
exactly two days before the query time is reported with score 8.33. -/
theorem trending_score_formula_witness :
    trendEntryX ∈ (trendingRoute 172800000 1 20 [trendMeme]).trendingMemes ∧
      trendEntryX.trendingScore =
        round2 (trendScoreOf trendEntryX.base.upvotes
          trendEntryX.base.downloads
          (daysSince 172800000 trendEntryX.base.createdAt)) ∧
      trendEntryX.trendingScore = 833 / 100 := by
  have hd : daysSince 172800000 trendMeme.createdAt = 2 := by
    norm_num [daysSince, trendMeme]
  have hsc : trendScoreOf trendMeme.upvotes trendMeme.downloads 2 = 25 / 3 := by
    norm_num [trendScoreOf, trendMeme]
  have hr2 : round2 (25 / 3) = 833 / 100 := by
    norm_num [round2, roundHalfEvenQ, Rat.floor]
  have hr1 : round1 (2 : ℚ) = 2 := by
    norm_num [round1, roundHalfEvenQ, Rat.floor]
  have hmem :
      trendEntryX ∈ (trendingRoute 172800000 1 20 [trendMeme]).trendingMemes := by
    simp [trendingRoute, trendingPaged, trendingEligible, trendingStaged,
      List.insertionSort, List.orderedInsert, hd, hsc, hr2, hr1, trendEntryX]
  exact ⟨hmem,
    trending_score_formula 172800000 1 20 [trendMeme] trendEntryX hmem, rfl⟩

/-- C7 counterexample: with zero upvotes and zero downloads the raw
trending score is zero at every age, so a strictly larger age does not
give a strictly smaller score. -/
theorem trend_decay_not_strict_cex :
    (1 : ℚ) < 2 ∧ trendScoreOf 0 0 1 = trendScoreOf 0 0 2 ∧
      ¬ trendScoreOf 0 0 2 < trendScoreOf 0 0 1 := by
  refine ⟨by norm_num, ?_, ?_⟩ <;> simp [trendScoreOf]

/-- C7 amended: when the engagement numerator 2 * upvotes + downloads is
positive, the raw trending score is strictly decreasing in the age. -/
theorem trend_decay_strict_of_pos (u d : Nat) (t₁ t₂ : ℚ)
    (h₀ : 0 ≤ t₁) (h₁ : t₁ < t₂) (hpos : 0 < 2 * u + d) :
    trendScoreOf u d t₂ < trendScoreOf u d t₁ := by
  unfold trendScoreOf
  have hn : (0 : ℚ) < ((2 * u + d : Nat) : ℚ) := by exact_mod_cast hpos
  have hb : (0 : ℚ) < t₁ + 1 := by linarith
  have hc : t₁ + 1 < t₂ + 1 := by linarith
  exact div_lt_div_of_pos_left hn hb hc

/-- C7 amended witness: the decay is strict between ages zero and two
for a record with ten upvotes and five downloads. -/
theorem trend_decay_strict_of_pos_witness :
    (0 : ℚ) ≤ 0 ∧ (0 : ℚ) < 2 ∧ 0 < 2 * 10 + 5 ∧
      trendScoreOf 10 5 2 < trendScoreOf 10 5 0 :=
  ⟨le_refl 0, by norm_num, by norm_num,
    trend_decay_strict_of_pos 10 5 0 2 (le_refl 0) (by norm_num) (by norm_num)⟩

/-- C8: a missing query, or any query that tokenizes to the empty list
(this covers the empty and the whitespace-only query), makes the search
route fail with the invalid-query client error, and the response does not
depend on the catalog, so the store is never consulted on this path. -/
theorem empty_query_rejected_before_store (q : Option String)
    (page limit : Nat) (cat cat' : List Meme)
    (h : q = none ∨ ∃ s, q = some s ∧ jsTokenize s = []) :
    searchRoute q page limit cat = .error .invalidQuery ∧
      searchRoute q page limit cat = searchRoute q page limit cat' := by
  rcases h with rfl | ⟨s, rfl, hs⟩
  · exact ⟨rfl, rfl⟩
  · by_cases he : s = ""
    · subst he
      exact ⟨rfl, rfl⟩
    · constructor <;> simp [searchRoute, he, hs]

/-- C8 witness: a whitespace-and-single-character query is rejected with
the invalid-query error on every catalog. -/
theorem empty_query_rejected_before_store_witness :
    (some "  a " = none ∨
        ∃ s, some "  a " = some s ∧ jsTokenize s = []) ∧
      (searchRoute (some "  a ") 1 20 [] = .error .invalidQuery ∧
        searchRoute (some "  a ") 1 20 [] =
          searchRoute (some "  a ") 1 20 [cexA]) :=
  ⟨Or.inr ⟨"  a ", rfl, by decide⟩,
    empty_query_rejected_before_store (some "  a ") 1 20 [] [cexA]
      (Or.inr ⟨"  a ", rfl, by decide⟩)⟩

/-- C10: a missing or empty tag-suggestion query yields a success
response carrying the empty tag list, and the response does not depend on
the catalog, so the store is never consulted on this path. -/
theorem search_assist_empty_query (q : Option String)
    (cat cat' : List Meme) (h : q = none ∨ q = some "") :
    searchAssistRoute q cat = .ok [] ∧
      searchAssistRoute q cat = searchAssistRoute q cat' := by
  rcases h with rfl | rfl
  · exact ⟨rfl, rfl⟩
  · constructor <;> simp [searchAssistRoute]

/-- C10 witness: the empty query returns the empty tag list on every
catalog. -/
theorem search_assist_empty_query_witness :
    (some "" = none ∨ some "" = some "") ∧
      (searchAssistRoute (some "") [] = .ok [] ∧
        searchAssistRoute (some "") [] =
          searchAssistRoute (some "") [popMeme1]) :=
  ⟨Or.inr rfl,
    search_assist_empty_query (some "") [] [popMeme1] (Or.inr rfl)⟩

/-- C1: on a two-record catalog where the older record has the strictly
higher relevance, the first page of size one returned by the search route
holds the newer, lower-relevance record, while the slice of the fully
ranked candidate set required by the specification holds the older,
higher-relevance one: the route slices by creation date first and ranks
only within the page. -/
theorem search_paginates_before_ranking :
    (searchRoute (some "aa bb") 1 1 [cexA, cexB]).toOption.map
        (fun o => o.memes.map (fun s => s.base.id)) = some [2] ∧
      (specSearchPage (jsTokenize "aa bb") 1 1 [cexA, cexB]).map
        (fun s => s.base.id) = [1] ∧
      relevanceScore (jsTokenize "aa bb") cexA = 4 ∧
      relevanceScore (jsTokenize "aa bb") cexB = 2 := by decide

/-- C2 counterexample: for the single token of the query and a record
whose two tags both contain it, the route scores two points (one per
matching tag) while the claimed distinct-token rule scores one. -/
theorem relevance_distinct_token_cex :
    relevanceScore (jsTokenize "ca") dupTagMeme = 2 ∧
      specRelevanceScore (jsTokenize "ca") dupTagMeme = 1 ∧
      relevanceScore (jsTokenize "ca") dupTagMeme ≠
        specRelevanceScore (jsTokenize "ca") dupTagMeme := by decide

/-- C2 amended: for tokens of length at least two, the relevance score
equals twice the number of token occurrences that are substrings of the
description plus the number of tags that contain at least one token, each
tag counted at most once however many tokens match it. -/
theorem relevance_score_characterization (words : List String) (m : Meme)
    (hw : ∀ w ∈ words, 2 ≤ w.length) :
    relevanceScore words m =
      2 * words.countP (fun w => containsCI w m.description) +
        m.tags.countP (fun t => words.any (fun w => containsCI w t)) := by
  rw [relevanceScore, tagMatches, descriptionMatches,
    List.countP_eq_length_filter, List.countP_eq_length_filter]
  by_cases hd : m.description = ""
  · rw [if_pos hd]
    have hzero : (words.filter (fun w => containsCI w m.description)).length = 0 := by
      rw [List.length_eq_zero, List.filter_eq_nil_iff]
      intro w hwmem
      have h2 : 2 ≤ w.length := hw w hwmem
      have hlen : w.toList.length = w.length := rfl
      obtain ⟨c, cs, hcs⟩ : ∃ c cs, w.toList.map Char.toLower = c :: cs := by
        cases he : w.toList with
        | nil => rw [he] at hlen; simp at hlen; omega
        | cons a l => exact ⟨Char.toLower a, l.map Char.toLower, by simp [he]⟩
      rw [hd]
      simp only [Bool.not_eq_true]
      show substrB (jsLower w).toList (jsLower "").toList = false
      have hemp : (jsLower "").toList = ([] : List Char) := rfl
      rw [hemp]
      show startsWith (jsLower w).toList [] = false
      have hjs : (jsLower w).toList = c :: cs := hcs
      rw [hjs]
      rfl
    omega
  · rw [if_neg hd]
    omega

/-- C2 amended witness: the scenario query has tokens of length at least
two and the characterization holds on the scenario record. -/
theorem relevance_score_characterization_witness :
    (∀ w ∈ jsTokenize "pointing choices", 2 ≤ w.length) ∧
      relevanceScore (jsTokenize "pointing choices") cexA =
        2 * (jsTokenize "pointing choices").countP
          (fun w => containsCI w cexA.description) +
          cexA.tags.countP
            (fun t => (jsTokenize "pointing choices").any
              (fun w => containsCI w t)) :=
  ⟨by decide,
    relevance_score_characterization (jsTokenize "pointing choices") cexA
      (by decide)⟩

/-- C3 counterexample: the search route does not clamp the limit: with
limit 101 on a catalog of 101 matching records the returned page holds
101 items, more than the claimed ceiling of 100. -/
theorem route_limit_unclamped_cex :
    (searchRoute (some "meme") 1 101 bigCatalog).toOption.map
        (fun o => o.memes.length) = some 101 ∧ 100 < 101 := by decide

/-- C3 amended: the validatePagination helper itself satisfies the
normalization contract: the page is at least one, the limit lies between
one and one hundred, the skip is the product of the predecessor of the
page with the limit, and missing inputs give page one and limit twenty. -/
theorem validatePagination_contract (page limit : Option Int) :
    1 ≤ (validatePagination page limit).1 ∧
      1 ≤ (validatePagination page limit).2.1 ∧
      (validatePagination page limit).2.1 ≤ 100 ∧
      (validatePagination page limit).2.2 =
        ((validatePagination page limit).1 - 1) *
          (validatePagination page limit).2.1 ∧
      validatePagination none none = (1, 20, 0) := by
  refine ⟨?_, ?_, ?_, rfl, by decide⟩
  · exact le_max_left 1 (jsOrDefault page 1)
  · exact le_min (by norm_num)
      (le_max_left 1 (jsOrDefault limit 20))
  · exact min_le_left 100 (max 1 (jsOrDefault limit 20))

/-- The upvote update on a catalog split around the first record carrying
the requested identifier. -/
theorem find_update_append (i : Nat) (now : Int) (pre post : List Meme)
    (r : Meme) (hpre : ∀ m ∈ pre, m.id ≠ i) (hr : r.id = i) :
    findOneAndUpdateUpvote i now (pre ++ r :: post) =
      some (pre ++ bumpUpvote now r :: post, bumpUpvote now r) := by
  induction pre with
  | nil => simp [findOneAndUpdateUpvote, hr]
  | cons m pre ih =>
    have hm : ¬ m.id = i := hpre m (List.mem_cons_self m pre)
    have ih2 := ih (fun x hx => hpre x (List.mem_cons_of_mem m hx))
    simp [findOneAndUpdateUpvote, hm, ih2]

/-- C9: upvoting an existing record increments its upvote counter by
exactly one and refreshes its update timestamp, leaves every other field
of the record unchanged, and leaves every other record of the catalog
untouched: the new catalog is the old one with only the target record
replaced. -/
theorem update_upvote_frame (pre post : List Meme) (r : Meme) (i : Nat)
    (now : Int) (hpre : ∀ m ∈ pre, m.id ≠ i) (hr : r.id = i) :
    updateUpvoteRoute (some i) now (pre ++ r :: post) =
        .ok (pre ++ bumpUpvote now r :: post, r.upvotes + 1) ∧
      (bumpUpvote now r).upvotes = r.upvotes + 1 ∧
      (bumpUpvote now r).updatedAt = now ∧
      (bumpUpvote now r).downloads = r.downloads ∧
      (bumpUpvote now r).tags = r.tags ∧
      (bumpUpvote now r).description = r.description ∧
      (bumpUpvote now r).createdAt = r.createdAt ∧
      (bumpUpvote now r).image_url = r.image_url ∧
      (bumpUpvote now r).cloudinary_id = r.cloudinary_id ∧
      (bumpUpvote now r).id = r.id := by
  refine ⟨?_, rfl, rfl, rfl, rfl, rfl, rfl, rfl, rfl, rfl⟩
  simp [updateUpvoteRoute, find_update_append i now pre post r hpre hr,
    bumpUpvote]

/-- C9 witness: upvoting the middle record of a three-record catalog. -/
theorem update_upvote_frame_witness :
    (∀ m ∈ [upMeme1], m.id ≠ 2) ∧ upMeme2.id = 2 ∧
      (updateUpvoteRoute (some 2) 99 ([upMeme1] ++ upMeme2 :: [upMeme3]) =
          .ok ([upMeme1] ++ bumpUpvote 99 upMeme2 :: [upMeme3],
            upMeme2.upvotes + 1) ∧
        (bumpUpvote 99 upMeme2).upvotes = upMeme2.upvotes + 1 ∧
        (bumpUpvote 99 upMeme2).updatedAt = 99 ∧
        (bumpUpvote 99 upMeme2).downloads = upMeme2.downloads ∧
        (bumpUpvote 99 upMeme2).tags = upMeme2.tags ∧
        (bumpUpvote 99 upMeme2).description = upMeme2.description ∧
        (bumpUpvote 99 upMeme2).createdAt = upMeme2.createdAt ∧
        (bumpUpvote 99 upMeme2).image_url = upMeme2.image_url ∧
        (bumpUpvote 99 upMeme2).cloudinary_id = upMeme2.cloudinary_id ∧
        (bumpUpvote 99 upMeme2).id = upMeme2.id) :=
  ⟨by decide, by decide,
    update_upvote_frame [upMeme1] [upMeme3] upMeme2 2 99 (by decide)
      (by decide)⟩

/-- Filtering a duplicate-free list for one value yields that value once
when present and nothing otherwise. -/
theorem nodup_filter_eq (l : List String) (hnd : l.Nodup) (t : String) :
    l.filter (fun u => decide (u = t)) = if t ∈ l then [t] else [] := by
  induction l with
  | nil => simp
  | cons a l ih =>
    obtain ⟨ha, hl⟩ := List.nodup_cons.mp hnd
    by_cases hat : a = t
    · subst hat
      have hnil : l.filter (fun u => decide (u = a)) = [] :=
        List.filter_eq_nil_iff.mpr (fun b hb => by
          simp only [decide_eq_true_eq]
          intro hba
          exact ha (hba ▸ hb))
      simp [List.filter_cons, hnil]
    · have hta : ¬ t = a := fun h => hat h.symm
      rw [List.filter_cons]
      simp only [decide_eq_true_eq, hat, if_false, List.mem_cons, hta,
        false_or]
      exact ih hl

/-- When no record repeats a tag, the unwound pairs carrying a given tag
are exactly one pair per record whose tag sequence contains it. -/
theorem unwind_filter_eq (catalog : List Meme) (t : String)
    (hnd : ∀ m ∈ catalog, m.tags.Nodup) :
    (unwindTags catalog).filter (fun p => decide (p.1 = t)) =
      (catalog.filter (fun m => decide (t ∈ m.tags))).map (fun m => (t, m)) := by
  induction catalog with
  | nil => rfl
  | cons m cat ih =>
    have hm := hnd m (List.mem_cons_self m cat)
    have ih2 := ih (fun x hx => hnd x (List.mem_cons_of_mem m hx))
    simp only [unwindTags, List.flatMap_cons, List.filter_append] at ih2 ⊢
    rw [List.filter_map]
    have hcomp :
        ((fun p => decide (p.1 = t)) ∘ (fun u => ((u, m) : String × Meme))) =
          (fun u => decide (u = t)) := rfl
    rw [hcomp, nodup_filter_eq m.tags hm t, ih2, List.filter_cons]
    by_cases hmem : t ∈ m.tags
    · simp [hmem]
    · simp [hmem]

/-- Evaluation of one group of the popular-tags pipeline on a catalog
without repeated tags inside a record. -/
theorem statFor_eval (catalog : List Meme) (t : String)
    (hnd : ∀ m ∈ catalog, m.tags.Nodup) :
    (statFor catalog t).count =
        (catalog.filter (fun m => decide (t ∈ m.tags))).length ∧
      (statFor catalog t).totalUpvotes =
        ((catalog.filter (fun m => decide (t ∈ m.tags))).map
          Meme.upvotes).sum ∧
      (statFor catalog t).totalDownloads =
        ((catalog.filter (fun m => decide (t ∈ m.tags))).map
          Meme.downloads).sum := by
  have h := unwind_filter_eq catalog t hnd
  refine ⟨?_, ?_, ?_⟩
  · show ((unwindTags catalog).filter (fun p => decide (p.1 = t))).length =
      (catalog.filter (fun m => decide (t ∈ m.tags))).length
    rw [h]
    simp
  · show (((unwindTags catalog).filter (fun p => decide (p.1 = t))).map
        (fun p => p.2.upvotes)).sum =
      ((catalog.filter (fun m => decide (t ∈ m.tags))).map Meme.upvotes).sum
    rw [h, List.map_map]
    rfl
  · show (((unwindTags catalog).filter (fun p => decide (p.1 = t))).map
        (fun p => p.2.downloads)).sum =
      ((catalog.filter (fun m => decide (t ∈ m.tags))).map Meme.downloads).sum
    rw [h, List.map_map]
    rfl

/-- C4 counterexample: a record whose tag sequence holds the same tag
twice contributes two to the reported count of that tag, while exactly
one record of the catalog contains the tag; the upvote total is also
doubled. -/
theorem popular_count_duplicate_tag_cex :
    (popularRoute 30 [dupPopMeme]).map (fun s => (s.tag, s.count, s.totalUpvotes)) =
        [("cat", 2, 14)] ∧
      ([dupPopMeme].filter (fun m => decide ("cat" ∈ m.tags))).length = 1 ∧
      dupPopMeme.upvotes = 7 := by decide

/-- C4 amended: on catalogs where no record repeats a tag, every entry of
the popular-tags response reports as count the number of records whose
tag sequence contains its tag, as totals the upvote and download sums
over exactly those records, and the response is ordered by descending
count with ties by descending total upvotes.  In general the pipeline
counts one unwound pair per occurrence, so a repeated tag inside one
record inflates the figures. -/
theorem popular_stats_characterization (limit : Nat) (catalog : List Meme)
    (hnd : ∀ m ∈ catalog, m.tags.Nodup) (s : TagStat)
    (hs : s ∈ popularRoute limit catalog) :
    (s.count = (catalog.filter (fun m => decide (s.tag ∈ m.tags))).length ∧
      s.totalUpvotes =
        ((catalog.filter (fun m => decide (s.tag ∈ m.tags))).map
          Meme.upvotes).sum ∧
      s.totalDownloads =
        ((catalog.filter (fun m => decide (s.tag ∈ m.tags))).map
          Meme.downloads).sum) ∧
    List.Pairwise statOrd (popularRoute limit catalog) := by
  constructor
  · have hs1 : s ∈ List.insertionSort statOrd
        ((tagKeys catalog).map (statFor catalog)) :=
      List.mem_of_mem_take hs
    rw [(List.perm_insertionSort statOrd
        ((tagKeys catalog).map (statFor catalog))).mem_iff,
      List.mem_map] at hs1
    obtain ⟨t, _, rfl⟩ := hs1
    have htag : (statFor catalog t).tag = t := rfl
    rw [htag]
    exact statFor_eval catalog t hnd
  · exact List.Pairwise.sublist
      (List.take_sublist limit
        (List.insertionSort statOrd ((tagKeys catalog).map (statFor catalog))))
      (List.sorted_insertionSort statOrd
        ((tagKeys catalog).map (statFor catalog)))

/-- C4 amended witness: the one-record catalog with one tag, two upvotes
and no repeated tag. -/
theorem popular_stats_characterization_witness :
    (∀ m ∈ [popMeme2], m.tags.Nodup) ∧
      statW ∈ popularRoute 30 [popMeme2] ∧
      ((statW.count =
          ([popMeme2].filter (fun m => decide (statW.tag ∈ m.tags))).length ∧
        statW.totalUpvotes =
          (([popMeme2].filter (fun m => decide (statW.tag ∈ m.tags))).map
            Meme.upvotes).sum ∧
        statW.totalDownloads =
          (([popMeme2].filter (fun m => decide (statW.tag ∈ m.tags))).map
            Meme.downloads).sum) ∧
        List.Pairwise statOrd (popularRoute 30 [popMeme2])) := by
  have hmem : statW ∈ popularRoute 30 [popMeme2] :=
    List.mem_singleton.mpr rfl
  exact ⟨by decide, hmem,
    popular_stats_characterization 30 [popMeme2] (by decide) statW hmem⟩

end NeonStore
